import Mathlib

/-!
Shallow embedding of `src/homework.py` (a fitness-tracker module with a base
class `Training`, three subclasses `Running`, `SportsWalking`, `Swimming`, and
a dispatcher `read_package`).

Python floats are modelled as rationals (`ℚ`); all arithmetic used by the
program is exact decimal arithmetic, so every formula-level claim is stated
over `ℚ`.  Python's float floor division `//` is modelled by `floordiv` below.
Dynamic dispatch (method overriding and class-attribute lookup such as
`self.LEN_STEP`) is modelled by a variant tag on the workout record and a
`match` in each method.
-/

/-- Python's `a // b` on floats: the floor of the true quotient, as a number. -/
def floordiv (a b : ℚ) : ℚ := ⌊a / b⌋

/-- `InfoMessage.__init__` stores five fields.  `calories` is an `Option`
because `Training.get_spent_calories` on the base class returns Python `None`
(its body is a bare `pass`). -/
structure InfoMessage where
  training_type : String
  duration : ℚ
  distance : ℚ
  speed : ℚ
  calories : Option ℚ
  deriving DecidableEq, Repr

/-- The variant tag: which runtime class the instance has, together with the
extra fields that subclass's `__init__` stores on `self`. -/
inductive Extra
  /-- a plain `Training` instance (the base class is instantiable in Python) -/
  | base
  /-- a `Running` instance (no extra fields) -/
  | running
  /-- a `SportsWalking` instance: stores `self.height` -/
  | walking (height : ℚ)
  /-- a `Swimming` instance: stores `self.length_pool` and `self.count_pool` -/
  | swimming (length_pool count_pool : ℚ)
  deriving DecidableEq, Repr

/-- The fields shared by `Training.__init__` (`self.action`, `self.duration`,
`self.weight`) plus the variant tag. -/
structure Workout where
  action : ℚ
  duration : ℚ
  weight : ℚ
  extra : Extra
  deriving DecidableEq, Repr

namespace Workout

/-- `Training.M_IN_KM = 1000`. -/
def M_IN_KM : ℚ := 1000

/-- `M_IN_H = 60` (declared on `Running` and `SportsWalking`). -/
def M_IN_H : ℚ := 60

/-- Class-attribute lookup `self.LEN_STEP`: `Training.LEN_STEP = 0.65`,
`Running.LEN_STEP = 0.65` (re-declared), `SportsWalking` inherits `0.65`,
`Swimming.LEN_STEP = 1.38`. -/
def LEN_STEP (w : Workout) : ℚ :=
  match w.extra with
  | .swimming _ _ => 1.38
  | _ => 0.65

/-- `type(self).__name__`, as used by `show_training_info`. -/
def type_name (w : Workout) : String :=
  match w.extra with
  | .base => "Training"
  | .running => "Running"
  | .walking _ => "SportsWalking"
  | .swimming _ _ => "Swimming"

/-- `Training.get_distance`: `self.action * self.LEN_STEP / self.M_IN_KM`.
No subclass overrides it. -/
def get_distance (w : Workout) : ℚ :=
  w.action * w.LEN_STEP / M_IN_KM

/-- `get_mean_speed`: the base `Training` method returns
`self.get_distance() / self.duration`; `Swimming` overrides it with
`self.length_pool * self.count_pool / self.M_IN_KM / self.duration`. -/
def get_mean_speed (w : Workout) : ℚ :=
  match w.extra with
  | .swimming length_pool count_pool =>
      length_pool * count_pool / M_IN_KM / w.duration
  | _ => w.get_distance / w.duration

/-- `get_spent_calories`, dispatched on the runtime class.
The base `Training` body is a bare `pass`, so the call returns Python `None`
(modelled `none`); each subclass returns a number (modelled `some _`). -/
def get_spent_calories (w : Workout) : Option ℚ :=
  match w.extra with
  | .base => none
  | .running =>
      -- Running: CF_CAL1 = 18, CF_CAL2 = 20
      some ((18 * w.get_mean_speed - 20) * w.weight / M_IN_KM
        * (w.duration * M_IN_H))
  | .walking height =>
      -- SportsWalking: cf_calorie_1 = 0.035, cf_calorie_2 = 0.029,
      -- with Python float floor division `//`
      some ((0.035 * w.weight
        + floordiv (w.get_mean_speed ^ 2) height * 0.029 * w.weight)
        * (w.duration * M_IN_H))
  | .swimming _ _ =>
      -- Swimming: swcf_1 = 1.1, swcf_2 = 2
      some ((w.get_mean_speed + 1.1) * 2 * w.weight)

/-- `Training.show_training_info`, in state-passing form: the result is the
constructed `InfoMessage` together with the post-state of the receiver.  The
method body only reads fields and calls the pure getters above (it contains no
assignment to `self`), so the post-state is the receiver itself. -/
def show_training_info (w : Workout) : InfoMessage × Workout :=
  (⟨w.type_name, w.duration, w.get_distance, w.get_mean_speed,
    w.get_spent_calories⟩, w)

/-- Whether the instance is one of the three concrete variants (not a bare
base `Training`). -/
def isVariant (w : Workout) : Prop :=
  w.extra ≠ .base

instance (w : Workout) : Decidable w.isVariant := by
  unfold isVariant; infer_instance

end Workout

/-- The runtime errors `read_package` can raise, modelled from Python call
semantics.  `noneNotCallable` is the `TypeError` raised by
`base_data.get(workout_type)(*data)` when the dictionary lookup misses and
returns `None` (message: a NoneType object is not callable — it carries no
workout code).  `ctorArity cls expected actual` is the `TypeError` raised by
calling a constructor with the wrong number of positional arguments (Python's
message names the class and both counts). -/
inductive PyError
  | noneNotCallable
  | ctorArity (cls : String) (expected actual : Nat)
  deriving DecidableEq, Repr

/-- `Swimming(*data)`: `__init__` takes 5 positional user arguments. -/
def callSwimming (data : List ℚ) : Except PyError Workout :=
  match data with
  | [action, duration, weight, length_pool, count_pool] =>
      .ok ⟨action, duration, weight, .swimming length_pool count_pool⟩
  | _ => .error (.ctorArity "Swimming" 5 data.length)

/-- `Running(*data)`: `__init__` takes 3 positional user arguments. -/
def callRunning (data : List ℚ) : Except PyError Workout :=
  match data with
  | [action, duration, weight] =>
      .ok ⟨action, duration, weight, .running⟩
  | _ => .error (.ctorArity "Running" 3 data.length)

/-- `SportsWalking(*data)`: `__init__` takes 4 positional user arguments. -/
def callSportsWalking (data : List ℚ) : Except PyError Workout :=
  match data with
  | [action, duration, weight, height] =>
      .ok ⟨action, duration, weight, .walking height⟩
  | _ => .error (.ctorArity "SportsWalking" 4 data.length)

/-- `read_package`: looks `workout_type` up in the dictionary
`{'SWM': Swimming, 'RUN': Running, 'WLK': SportsWalking}` via `.get` (which
yields `None` on a miss) and immediately calls the result on `*data`. -/
def read_package (workout_type : String) (data : List ℚ) :
    Except PyError Workout :=
  if workout_type = "SWM" then callSwimming data
  else if workout_type = "RUN" then callRunning data
  else if workout_type = "WLK" then callSportsWalking data
  else .error .noneNotCallable

namespace Dispatcher

/-- The dispatcher errors exactly as the spec names them. -/
inductive SpecError
  | unknownWorkoutType (code : String)
  | arityMismatch (code : String) (expected actual : Nat)
  deriving DecidableEq, Repr

/-- Modelled from the spec: `Dispatcher.resolve(code, params)` as section 4.5
describes it — look `code` up in the fixed mapping, fail with
`UnknownWorkoutType(code)` on a miss, fail with
`ArityMismatch(code, expected, actual)` when the parameter count differs from
the variant's arity (3 for Running, 4 for Walking, 5 for Swimming), otherwise
construct the variant positionally.  This definition follows the spec's words;
it exists only to be compared with `read_package`, which is translated from
the source. -/
def resolve (code : String) (params : List ℚ) : Except SpecError Workout :=
  if code = "RUN" then
    match params with
    | [action, duration, weight] => .ok ⟨action, duration, weight, .running⟩
    | _ => .error (.arityMismatch "RUN" 3 params.length)
  else if code = "WLK" then
    match params with
    | [action, duration, weight, height] =>
        .ok ⟨action, duration, weight, .walking height⟩
    | _ => .error (.arityMismatch "WLK" 4 params.length)
  else if code = "SWM" then
    match params with
    | [action, duration, weight, length_pool, count_pool] =>
        .ok ⟨action, duration, weight, .swimming length_pool count_pool⟩
    | _ => .error (.arityMismatch "SWM" 5 params.length)
  else .error (.unknownWorkoutType code)

end Dispatcher

/-- The extra fields of the variant are non-negative (used for the
sign claims: `height` for walking, pool length and lap count for swimming). -/
def Extra.nonneg : Extra → Prop
  | .base => True
  | .running => True
  | .walking height => 0 ≤ height
  | .swimming length_pool count_pool => 0 ≤ length_pool ∧ 0 ≤ count_pool

/-- Helper: calling `Running(*data)` with a list whose length is not 3 raises
the arity `TypeError`. -/
theorem callRunning_of_length_ne (data : List ℚ) (h : data.length ≠ 3) :
    callRunning data = .error (.ctorArity "Running" 3 data.length) := by
  cases data with
  | nil => rfl
  | cons a t =>
    cases t with
    | nil => rfl
    | cons b t =>
      cases t with
      | nil => rfl
      | cons c t =>
        cases t with
        | nil => exact absurd rfl h
        | cons e t => rfl

/-- Helper: calling `SportsWalking(*data)` with a list whose length is not 4
raises the arity `TypeError`. -/
theorem callSportsWalking_of_length_ne (data : List ℚ) (h : data.length ≠ 4) :
    callSportsWalking data = .error (.ctorArity "SportsWalking" 4 data.length) := by
  cases data with
  | nil => rfl
  | cons a t =>
    cases t with
    | nil => rfl
    | cons b t =>
      cases t with
      | nil => rfl
      | cons c t =>
        cases t with
        | nil => rfl
        | cons e t =>
          cases t with
          | nil => exact absurd rfl h
          | cons f t => rfl

/-- Helper: calling `Swimming(*data)` with a list whose length is not 5 raises
the arity `TypeError`. -/
theorem callSwimming_of_length_ne (data : List ℚ) (h : data.length ≠ 5) :
    callSwimming data = .error (.ctorArity "Swimming" 5 data.length) := by
  cases data with
  | nil => rfl
  | cons a t =>
    cases t with
    | nil => rfl
    | cons b t =>
      cases t with
      | nil => rfl
      | cons c t =>
        cases t with
        | nil => rfl
        | cons e t =>
          cases t with
          | nil => rfl
          | cons f t =>
            cases t with
            | nil => exact absurd rfl h
            | cons g t => rfl

/-- C1: for every code outside {RUN, WLK, SWM} and every parameter list,
`read_package` fails — but with the generic not-callable `TypeError` produced
by calling the `None` that the dictionary lookup returned.  The error is the
same for every unknown code and carries no code payload; there is no dedicated
`UnknownWorkoutType(code)` error in the code.  (Amended form of the claim.) -/
theorem read_package_unknown_code_fails_generic (code : String)
    (data : List ℚ) (h1 : code ≠ "SWM") (h2 : code ≠ "RUN")
    (h3 : code ≠ "WLK") :
    read_package code data = .error .noneNotCallable := by
  simp [read_package, h1, h2, h3]

/-- C1 witness: the amended claim at the concrete unknown code XYZ. -/
theorem read_package_unknown_code_fails_generic_witness :
    ("XYZ" ≠ "SWM" ∧ "XYZ" ≠ "RUN" ∧ "XYZ" ≠ "WLK") ∧
    read_package "XYZ" [1, 2, 3] = .error .noneNotCallable :=
  ⟨⟨by decide, by decide, by decide⟩,
    read_package_unknown_code_fails_generic "XYZ" [1, 2, 3]
      (by decide) (by decide) (by decide)⟩

/-- C1 counterexample: the claim as stated is false — the failure is not the
dedicated error `UnknownWorkoutType(code)`.  Two distinct unknown codes make
`read_package` fail with the very same error value (so the error cannot carry
the code), whereas the spec-modelled `Dispatcher.resolve` returns
`unknownWorkoutType` carrying each code, as the claim demands. -/
theorem read_package_unknown_code_counterexample :
    read_package "XYZ" [1, 2, 3] = .error .noneNotCallable ∧
    read_package "ABC" [1, 2, 3] = .error .noneNotCallable ∧
    Dispatcher.resolve "XYZ" [1, 2, 3]
      = .error (.unknownWorkoutType "XYZ") ∧
    Dispatcher.resolve "ABC" [1, 2, 3]
      = .error (.unknownWorkoutType "ABC") :=
  ⟨rfl, rfl, rfl, rfl⟩

/-- C2: for each known code, `read_package` fails whenever the parameter count
differs from the variant's arity (3 for Running, 4 for SportsWalking, 5 for
Swimming), with the constructor-call `TypeError` that records the variant
class and the expected and actual counts; in particular RUN with a 2-element
list fails with expected 3, actual 2. -/
theorem read_package_arity_check (data : List ℚ) :
    (data.length ≠ 3 →
      read_package "RUN" data = .error (.ctorArity "Running" 3 data.length)) ∧
    (data.length ≠ 4 →
      read_package "WLK" data
        = .error (.ctorArity "SportsWalking" 4 data.length)) ∧
    (data.length ≠ 5 →
      read_package "SWM" data
        = .error (.ctorArity "Swimming" 5 data.length)) ∧
    read_package "RUN" [1, 2] = .error (.ctorArity "Running" 3 2) := by
  refine ⟨?_, ?_, ?_, rfl⟩
  · intro h
    exact callRunning_of_length_ne data h
  · intro h
    exact callSportsWalking_of_length_ne data h
  · intro h
    exact callSwimming_of_length_ne data h

/-- C2 witness: the arity check at the concrete 2-element RUN package. -/
theorem read_package_arity_check_witness :
    ([(1 : ℚ), 2].length ≠ 3) ∧
    read_package "RUN" [1, 2] = .error (.ctorArity "Running" 3 2) :=
  ⟨by decide, (read_package_arity_check [1, 2]).1 (by decide)⟩

/-- C3: evaluating the code at the failing input — `get_spent_calories` on a
bare base `Training` instance returns Python `None` (its body is a bare
`pass`), i.e. it returns normally instead of signalling "not implemented",
contradicting its own `-> float` annotation. -/
theorem base_get_spent_calories_returns_none :
    Workout.get_spent_calories ⟨15000, 1, 75, .base⟩ = none := rfl

/-- C4 (amended): for every Running instance with positive duration,
`get_spent_calories` equals
`(18 * meanSpeed - 20) * weight / 1000 * duration * 60`; at the sample
action 15000, duration 1, weight 75 the distance and mean speed are 9.75 and
the calories are 699.75 (the claim's figure 653.85 is wrong arithmetic). -/
theorem running_calories_formula (a d wt : ℚ) (hd : 0 < d) :
    Workout.get_spent_calories ⟨a, d, wt, .running⟩ =
      some ((18 * Workout.get_mean_speed ⟨a, d, wt, .running⟩ - 20)
        * wt / 1000 * d * 60) ∧
    Workout.get_distance ⟨15000, 1, 75, .running⟩ = 9.75 ∧
    Workout.get_mean_speed ⟨15000, 1, 75, .running⟩ = 9.75 ∧
    Workout.get_spent_calories ⟨15000, 1, 75, .running⟩ = some 699.75 := by
  refine ⟨?_, ?_, ?_, ?_⟩
  · simp only [Workout.get_spent_calories, Workout.M_IN_KM, Workout.M_IN_H,
      Option.some.injEq]
    ring
  · norm_num [Workout.get_distance, Workout.LEN_STEP, Workout.M_IN_KM]
  · norm_num [Workout.get_mean_speed, Workout.get_distance,
      Workout.LEN_STEP, Workout.M_IN_KM]
  · norm_num [Workout.get_spent_calories, Workout.get_mean_speed,
      Workout.get_distance, Workout.LEN_STEP, Workout.M_IN_KM,
      Workout.M_IN_H]

/-- C4 witness: the amended claim at the sample Running instance. -/
theorem running_calories_formula_witness :
    (0 : ℚ) < 1 ∧
    Workout.get_spent_calories ⟨15000, 1, 75, .running⟩ =
      some ((18 * Workout.get_mean_speed ⟨15000, 1, 75, .running⟩ - 20)
        * 75 / 1000 * 1 * 60) :=
  ⟨by norm_num, (running_calories_formula 15000 1 75 (by norm_num)).1⟩

/-- C4 counterexample: the claim's sample figure is false — the Running sample
(action 15000, duration 1, weight 75) burns 699.75 kcal, not 653.85. -/
theorem running_calories_sample_counterexample :
    Workout.get_spent_calories ⟨15000, 1, 75, .running⟩ = some 699.75 ∧
    (699.75 : ℚ) ≠ 653.85 := by
  constructor
  · norm_num [Workout.get_spent_calories, Workout.get_mean_speed,
      Workout.get_distance, Workout.LEN_STEP, Workout.M_IN_KM,
      Workout.M_IN_H]
  · norm_num

/-- C5: for every SportsWalking instance with positive duration and height,
`get_spent_calories` equals
`(0.035 * weight + floordiv (meanSpeed ^ 2) height * 0.029 * weight)
  * duration * 60`, where `floordiv` is floor division; at the walking sample
the floored term is 0 (floor of 5.85 squared over 180), the calories are
157.5, and true division would instead give 182.3113125. -/
theorem walking_calories_floor_formula (a d wt h : ℚ)
    (hd : 0 < d) (hh : 0 < h) :
    Workout.get_spent_calories ⟨a, d, wt, .walking h⟩ =
      some ((0.035 * wt
        + floordiv (Workout.get_mean_speed ⟨a, d, wt, .walking h⟩ ^ 2) h
          * 0.029 * wt) * d * 60) ∧
    floordiv ((5.85 : ℚ) ^ 2) 180 = 0 ∧
    Workout.get_spent_calories ⟨9000, 1, 75, .walking 180⟩ = some 157.5 ∧
    (0.035 * 75 + (5.85 : ℚ) ^ 2 / 180 * 0.029 * 75) * 1 * 60
      = 182.3113125 ∧
    (157.5 : ℚ) ≠ 182.3113125 := by
  refine ⟨?_, ?_, ?_, ?_, ?_⟩
  · simp only [Workout.get_spent_calories, Workout.M_IN_KM, Workout.M_IN_H,
      Option.some.injEq]
    ring
  · norm_num [floordiv]
  · simp [Workout.get_spent_calories, Workout.get_mean_speed,
      Workout.get_distance, Workout.LEN_STEP, Workout.M_IN_KM,
      Workout.M_IN_H, floordiv]
    norm_num
  · norm_num
  · norm_num

/-- C5 witness: the claim at the sample SportsWalking instance. -/
theorem walking_calories_floor_formula_witness :
    ((0 : ℚ) < 1 ∧ (0 : ℚ) < 180) ∧
    Workout.get_spent_calories ⟨9000, 1, 75, .walking 180⟩ =
      some ((0.035 * 75
        + floordiv (Workout.get_mean_speed ⟨9000, 1, 75, .walking 180⟩ ^ 2)
            180 * 0.029 * 75) * 1 * 60) :=
  ⟨⟨by norm_num, by norm_num⟩,
    (walking_calories_floor_formula 9000 1 75 180
      (by norm_num) (by norm_num)).1⟩

/-- C6: for every Swimming instance with positive duration, `get_mean_speed`
is the overridden pool-based formula
`length_pool * count_pool / 1000 / duration` and `get_spent_calories` equals
`(meanSpeed + 1.1) * 2 * weight`; at the sample (action 720, duration 1,
weight 80, pool length 25, 40 laps) the mean speed is 1 and the calories
are 336. -/
theorem swimming_speed_calories_formula (a d wt lp cp : ℚ) (hd : 0 < d) :
    Workout.get_mean_speed ⟨a, d, wt, .swimming lp cp⟩
      = lp * cp / 1000 / d ∧
    Workout.get_spent_calories ⟨a, d, wt, .swimming lp cp⟩ =
      some ((Workout.get_mean_speed ⟨a, d, wt, .swimming lp cp⟩ + 1.1)
        * 2 * wt) ∧
    Workout.get_mean_speed ⟨720, 1, 80, .swimming 25 40⟩ = 1 ∧
    Workout.get_spent_calories ⟨720, 1, 80, .swimming 25 40⟩
      = some 336 := by
  refine ⟨?_, ?_, ?_, ?_⟩
  · simp [Workout.get_mean_speed, Workout.M_IN_KM]
  · simp [Workout.get_spent_calories]
  · norm_num [Workout.get_mean_speed, Workout.M_IN_KM]
  · norm_num [Workout.get_spent_calories, Workout.get_mean_speed,
      Workout.M_IN_KM]

/-- C6 witness: the claim at the sample Swimming instance. -/
theorem swimming_speed_calories_formula_witness :
    (0 : ℚ) < 1 ∧
    Workout.get_mean_speed ⟨720, 1, 80, .swimming 25 40⟩
      = 25 * 40 / 1000 / 1 :=
  ⟨by norm_num,
    (swimming_speed_calories_formula 720 1 80 25 40 (by norm_num)).1⟩

/-- C7: for every instance, `get_distance` is
`action * LEN_STEP / 1000` with step length 0.65 for Running and
SportsWalking and 1.38 for Swimming; and for Running and SportsWalking,
`get_mean_speed` is `get_distance / duration` (under the claim's
precondition that the duration is positive). -/
theorem distance_and_mean_speed_formula (a d wt h lp cp : ℚ) :
    Workout.get_distance ⟨a, d, wt, .running⟩ = a * 0.65 / 1000 ∧
    Workout.get_distance ⟨a, d, wt, .walking h⟩ = a * 0.65 / 1000 ∧
    Workout.get_distance ⟨a, d, wt, .swimming lp cp⟩ = a * 1.38 / 1000 ∧
    (0 < d →
      Workout.get_mean_speed ⟨a, d, wt, .running⟩
        = Workout.get_distance ⟨a, d, wt, .running⟩ / d ∧
      Workout.get_mean_speed ⟨a, d, wt, .walking h⟩
        = Workout.get_distance ⟨a, d, wt, .walking h⟩ / d) := by
  refine ⟨?_, ?_, ?_, fun hd => ⟨?_, ?_⟩⟩ <;>
    simp [Workout.get_distance, Workout.get_mean_speed, Workout.LEN_STEP,
      Workout.M_IN_KM]

/-- C7 witness: the claim at concrete Running and SportsWalking instances
with duration 1. -/
theorem distance_and_mean_speed_formula_witness :
    (0 : ℚ) < 1 ∧
    (Workout.get_mean_speed ⟨15000, 1, 75, .running⟩
        = Workout.get_distance ⟨15000, 1, 75, .running⟩ / 1 ∧
      Workout.get_mean_speed ⟨15000, 1, 75, .walking 180⟩
        = Workout.get_distance ⟨15000, 1, 75, .walking 180⟩ / 1) :=
  ⟨by norm_num,
    (distance_and_mean_speed_formula 15000 1 75 180 25 40).2.2.2
      (by norm_num)⟩

/-- C8: for Swimming the reported distance is still the inherited
action-based formula `action * 1.38 / 1000`, independent of the pool length
and lap count; consequently distance need not equal mean speed times
duration — at the sample the distance is 0.9936 km while the speed over the
1-hour duration accounts for 1 km. -/
theorem swimming_distance_action_based :
    (∀ a d wt lp cp lp2 cp2 : ℚ,
      Workout.get_distance ⟨a, d, wt, .swimming lp cp⟩ = a * 1.38 / 1000 ∧
      Workout.get_distance ⟨a, d, wt, .swimming lp cp⟩
        = Workout.get_distance ⟨a, d, wt, .swimming lp2 cp2⟩) ∧
    Workout.get_distance ⟨720, 1, 80, .swimming 25 40⟩ = 0.9936 ∧
    Workout.get_mean_speed ⟨720, 1, 80, .swimming 25 40⟩ = 1 ∧
    Workout.get_distance ⟨720, 1, 80, .swimming 25 40⟩
      ≠ Workout.get_mean_speed ⟨720, 1, 80, .swimming 25 40⟩ * 1 := by
  refine ⟨fun a d wt lp cp lp2 cp2 => ⟨?_, ?_⟩, ?_, ?_, ?_⟩ <;>
    norm_num [Workout.get_distance, Workout.get_mean_speed,
      Workout.LEN_STEP, Workout.M_IN_KM]

/-- C9: `show_training_info` is pure and idempotent — on every variant
instance with positive duration, the call leaves the receiver unchanged
(the post-state equals the receiver) and a second call on that post-state
builds an `InfoMessage` with identical field values. -/
theorem show_training_info_pure_idempotent (w : Workout)
    (hv : w.isVariant) (hd : 0 < w.duration) :
    (Workout.show_training_info w).2 = w ∧
    (Workout.show_training_info (Workout.show_training_info w).2).1
      = (Workout.show_training_info w).1 :=
  ⟨rfl, rfl⟩

/-- C9 witness: purity and idempotence at the sample Running instance. -/
theorem show_training_info_pure_idempotent_witness :
    (Workout.isVariant ⟨15000, 1, 75, .running⟩ ∧
      (0 : ℚ) < Workout.duration ⟨15000, 1, 75, .running⟩) ∧
    ((Workout.show_training_info ⟨15000, 1, 75, .running⟩).2
        = ⟨15000, 1, 75, .running⟩ ∧
      (Workout.show_training_info
          (Workout.show_training_info ⟨15000, 1, 75, .running⟩).2).1
        = (Workout.show_training_info ⟨15000, 1, 75, .running⟩).1) :=
  ⟨⟨by simp [Workout.isVariant], by norm_num⟩,
    show_training_info_pure_idempotent ⟨15000, 1, 75, .running⟩
      (by simp [Workout.isVariant]) (by norm_num)⟩

/-- C10: with non-negative action and weight, positive duration, and
non-negative variant extras, every instance has non-negative distance and
non-negative mean speed. -/
theorem distance_and_speed_nonneg (a d wt : ℚ) (e : Extra)
    (ha : 0 ≤ a) (hd : 0 < d) (hw : 0 ≤ wt) (he : e.nonneg) :
    0 ≤ Workout.get_distance ⟨a, d, wt, e⟩ ∧
    0 ≤ Workout.get_mean_speed ⟨a, d, wt, e⟩ := by
  have hstep : 0 ≤ Workout.LEN_STEP ⟨a, d, wt, e⟩ := by
    cases e <;> norm_num [Workout.LEN_STEP]
  have hdist : 0 ≤ Workout.get_distance ⟨a, d, wt, e⟩ := by
    show 0 ≤ a * Workout.LEN_STEP ⟨a, d, wt, e⟩ / Workout.M_IN_KM
    exact div_nonneg (mul_nonneg ha hstep)
      (by norm_num [Workout.M_IN_KM])
  refine ⟨hdist, ?_⟩
  cases e with
  | swimming lp cp =>
      obtain ⟨hlp, hcp⟩ := he
      show 0 ≤ lp * cp / Workout.M_IN_KM / d
      exact div_nonneg
        (div_nonneg (mul_nonneg hlp hcp) (by norm_num [Workout.M_IN_KM]))
        hd.le
  | base =>
      show 0 ≤ Workout.get_distance ⟨a, d, wt, .base⟩ / d
      exact div_nonneg hdist hd.le
  | running =>
      show 0 ≤ Workout.get_distance ⟨a, d, wt, .running⟩ / d
      exact div_nonneg hdist hd.le
  | walking hgt =>
      show 0 ≤ Workout.get_distance ⟨a, d, wt, .walking hgt⟩ / d
      exact div_nonneg hdist hd.le

/-- C10 witness: non-negativity at the sample Swimming instance. -/
theorem distance_and_speed_nonneg_witness :
    ((0 : ℚ) ≤ 720 ∧ (0 : ℚ) < 1 ∧ (0 : ℚ) ≤ 80 ∧
      Extra.nonneg (Extra.swimming 25 40)) ∧
    (0 ≤ Workout.get_distance ⟨720, 1, 80, .swimming 25 40⟩ ∧
      0 ≤ Workout.get_mean_speed ⟨720, 1, 80, .swimming 25 40⟩) :=
  ⟨⟨by norm_num, by norm_num, by norm_num, ⟨by norm_num, by norm_num⟩⟩,
    distance_and_speed_nonneg 720 1 80 (.swimming 25 40)
      (by norm_num) (by norm_num) (by norm_num)
      ⟨by norm_num, by norm_num⟩⟩
